import Mathlib

/-!
Verification development for the creator-studio serverless backend
(`src/api/generate.js`, two handler revisions, and `src/unnamed/part_000`,
a third revision). The handler parses a JSON body with a `type`
discriminator, builds a natural-language prompt for image requests, and
dispatches to one of two providers (a Gemini-family multimodal model, or
DALL-E). We embed the prompt builder, the provider result extraction, and
the pre-network dispatch step of each handler revision as pure Lean
functions and prove the specified properties about them.
-/

namespace CreatorStudio

/-- Test whether `pat` is an initial segment of `s` (on character lists). -/
def charsHaveStart (pat s : List Char) : Bool :=
  match pat, s with
  | [], _ => true
  | _ :: _, [] => false
  | a :: as, b :: bs => a == b && charsHaveStart as bs

/-- Test whether `pat` occurs as a contiguous segment somewhere in `s`. -/
def charsContain (pat s : List Char) : Bool :=
  match s with
  | [] => pat.isEmpty
  | _ :: rest => charsHaveStart pat s || charsContain pat rest

/-- Substring test: `pat` occurs somewhere in `s`. -/
def containsSubstr (s pat : String) : Bool :=
  charsContain pat.data s.data

/-- A JSON value, as produced by the platform JSON parser.  Numbers are kept
abstract as integers; none of the verified properties inspect numbers. -/
inductive Json where
  | null
  | bool (b : Bool)
  | num (n : Int)
  | str (s : String)
  | arr (xs : List Json)
  | obj (fields : List (String × Json))

/-- A reference-image blob as sent by the frontend in `payload.imageBlobs`. -/
structure Blob where
  mimeType : String
  data : String
  deriving Repr, DecidableEq

/-- The `inlineData` field of a Gemini content part. -/
structure InlineData where
  mimeType : String
  data : String
  deriving Repr, DecidableEq

/-- A Gemini content part: either inline image data or text. -/
inductive Part where
  | inlineData (d : InlineData)
  | text (t : String)
  deriving Repr, DecidableEq

/-- One response candidate: its content parts and its finish reason
(e.g. "STOP", or "SAFETY" for a safety-filter stop). -/
structure Candidate where
  parts : List Part
  finishReason : String
  deriving Repr, DecidableEq

/-- A Gemini generate-content response, as consumed by the handler. -/
structure GeminiResponse where
  candidates : List Candidate
  deriving Repr, DecidableEq

/-- SDK `response.text()`: the concatenated text parts of the first
candidate (empty when there is no candidate or no text part). -/
def GeminiResponse.textOf (r : GeminiResponse) : String :=
  match r.candidates with
  | [] => ""
  | c :: _ => String.join (c.parts.filterMap fun p =>
      match p with
      | .text t => some t
      | _ => none)

/-- Source expression `parts.find(p => p.inlineData)?.inlineData.data`: the
data of the first inline-data part, if any. -/
def findInlineData (parts : List Part) : Option String :=
  match parts.find? (fun p => match p with | .inlineData _ => true | _ => false) with
  | some (.inlineData d) => some d.data
  | _ => none

/-- Result extraction of `generateWithGemini` (generate.js lines 49-59,
part_000 lines 39-51): take the first inline image of the first candidate
and wrap it as a PNG data URI; otherwise fail, quoting any textual
response, or with a fixed no-image message when there is no text. -/
def geminiExtract (response : GeminiResponse) : Except String String :=
  let base64ImageData :=
    match response.candidates with
    | [] => none
    | c :: _ => findInlineData c.parts
  match base64ImageData with
  | some data => .ok ("data:image/png;base64," ++ data)
  | none =>
    let textResponse := response.textOf
    if textResponse ≠ "" then
      .error ("AI failed to create image: \"" ++ textResponse ++ "\"")
    else
      .error "AI did not return an image. This might be due to safety filters or an incompatible prompt."

/-- Result extraction of the `final-render` branch (generate.js lines
162-171, part_000 lines 138-146): same inline-data extraction, but a
different fixed error message and no text fallback. -/
def finalRenderExtract (response : GeminiResponse) : Except String String :=
  let finalRenderBase64 :=
    match response.candidates with
    | [] => none
    | c :: _ => findInlineData c.parts
  match finalRenderBase64 with
  | some data => .ok ("data:image/png;base64," ++ data)
  | none => .error "AI did not return a final render image."

/-- Table `sizeMapping` of `generateWithDalle` (generate.js line 63): JS
object lookup, `none` for a missing key. -/
def sizeMapping (k : String) : Option String :=
  if k = "1:1" then some "1024x1024"
  else if k = "9:16" then some "1024x1792"
  else if k = "16:9" then some "1792x1024"
  else if k = "4:5" then some "1024x1024"
  else none

/-- Source expression `sizeMapping[aspectRatio] || "1024x1024"` (generate.js
line 68): the requested DALL-E output size, with the fallback on a missing
key (every present value is a non-empty string, hence truthy). -/
def dalleSize (aspectRatio : String) : String :=
  (sizeMapping aspectRatio).getD "1024x1024"

/-- Table `aspectRatioDescriptions` (generate.js line 117): JS object
lookup, `none` (JS `undefined`) for a missing key. -/
def aspectRatioDescriptions (k : String) : Option String :=
  if k = "1:1" then some "square (1:1)"
  else if k = "4:5" then some "portrait (4:5)"
  else if k = "9:16" then some "tall portrait (9:16)"
  else if k = "16:9" then some "widescreen landscape (16:9)"
  else none

/-- JS template-string interpolation of a possibly-undefined value:
`undefined` prints as the string "undefined". -/
def showUndef : Option String → String
  | some s => s
  | none => "undefined"

/-- The `produk` case of the focus directive appended to the creative
brief. -/
def focusProduk : String :=
  " Additional direction: Focus ONLY on the raw product or main subject, ignoring all packaging."

/-- The `keduanya` case of the focus directive appended to the creative
brief. -/
def focusKeduanya : String :=
  " CRITICAL direction: Display the product packaging AND the raw product together in a realistic, artistic scene."

/-- The `kemasan` and `default` case of the focus directive appended to
the creative brief. -/
def focusKemasan : String :=
  " Additional direction: Focus ONLY on the product packaging. Do not show the raw product separately."

/-- The `switch (aiFocus)` of the handler (generate.js lines 124-128 and
134-138, part_000 lines 104-108 and 114-118): `kemasan` and every
unrecognized value take the `default` branch. -/
def focusDirective (aiFocus : String) : String :=
  if aiFocus = "produk" then focusProduk
  else if aiFocus = "keduanya" then focusKeduanya
  else focusKemasan

/-- The `payload` object of an image-type request, as destructured by
the handler.  `openaiApiKey` and `imageBlobs` may be absent (`none`). -/
structure ImagePayload where
  mode : String
  prompt : String
  posterHeadline : String
  mockupType : String
  brandName : String
  brandDescription : String
  aspectRatio : String
  aiFocus : String
  engine : String
  openaiApiKey : Option String
  imageBlobs : Option (List Blob)
  deriving Repr, DecidableEq

/-- The Poster-mode base brief, before any focus directive. -/
def posterBase (p : ImagePayload) : String :=
  "Creative brief for a poster: \"" ++ p.prompt ++ "\". Headline Text: \"" ++ p.posterHeadline ++ "\"."

/-- The Mockup-mode brief (no focus directive in this mode). -/
def mockupBase (p : ImagePayload) : String :=
  "Creative brief for a packaging mockup: Brand Name: \"" ++ p.brandName
    ++ "\". Design a \x27" ++ p.mockupType
    ++ "\x27 packaging for this product based on the description: \"" ++ p.brandDescription ++ "\"."

/-- The default (Foto Produk) base brief, before the focus directive. -/
def fotoBase (p : ImagePayload) : String :=
  "Creative brief: \"" ++ p.prompt ++ "\"."

/-- `creativeBrief` construction (generate.js lines 120-139, part_000
lines 100-119): Poster mode appends a focus directive only when
`imageBlobs` is present and non-empty; Mockup mode never appends one; the
default (Foto Produk) mode always appends one. -/
def creativeBrief (p : ImagePayload) : String :=
  if p.mode = "Poster / Desain" then
    match p.imageBlobs with
    | some blobs =>
      if blobs.length > 0 then posterBase p ++ focusDirective p.aiFocus else posterBase p
    | none => posterBase p
  else if p.mode = "Mockup Packaging" then
    mockupBase p
  else
    fotoBase p ++ focusDirective p.aiFocus

/-- `finalPrompt` (generate.js line 140, part_000 line 120): the aspect-
ratio law line followed by the creative brief. -/
def finalPrompt (p : ImagePayload) : String :=
  "**[LAW 1: ASPECT RATIO] The final image MUST BE "
    ++ showUndef (aspectRatioDescriptions p.aspectRatio)
    ++ ".**\n\n" ++ creativeBrief p

/-- `imageBlobs ? imageBlobs.map(blob => (\x7b inlineData: ... \x7d)) : []`
(generate.js line 142, part_000 line 121). -/
def imagePartsOf (p : ImagePayload) : List Part :=
  match p.imageBlobs with
  | some blobs => blobs.map fun b => .inlineData ⟨b.mimeType, b.data⟩
  | none => []

/-- JS truthiness of a possibly-absent string: absent (`undefined`) and the
empty string are falsy. -/
def jsTruthy : Option String → Bool
  | none => false
  | some s => s ≠ ""

/-- The fixed `finalRenderPrompt` of the first generate.js revision
(line 158). -/
def finalRenderInstruction : String :=
  "Re-render this image from scratch as a final professional photograph. Enhance details, lighting, and textures to achieve hyper-realism. Do not change the subject, composition, or aspect ratio. Your task is purely technical enhancement to the highest possible quality."

/-- The fixed `finalRenderPrompt` of part_000 (line 135) and the second
generate.js revision (line 307), elided with an ellipsis in the source
itself. -/
def finalRenderInstructionShort : String :=
  "Re-render this image from scratch as a final professional photograph. Enhance details, lighting, and textures to achieve hyper-realism..."

/-- The parsed request body, after the `type` discriminator switch. -/
inductive RequestBody where
  | image (p : ImagePayload)
  | finalRender (base64Data : String)
  | ideas (modelPayload : String)
  | analyze (parts : List Part) (analysisType : String)
  | other (t : String)
  deriving Repr, DecidableEq

/-- A network call to a provider, as the handler is about to issue it. -/
inductive DispatchAction where
  | callGemini (prompt : String) (parts : List Part)
  | callGeminiPayload (payload : String)
  | callGeminiAnalyze (parts : List Part) (analysisType : String)
  | callDalle (prompt : String) (size : String)
  deriving Repr, DecidableEq

/-- What the handler does before (or instead of) its first provider
network call. -/
inductive HandlerOutcome where
  | configError (status : Nat) (msg : String)
  | requestError (msg : String)
  | providerCall (a : DispatchAction)
  | badRequest (msg : String)
  deriving Repr, DecidableEq

/-- First dispatch step of the part_000 handler (and the second generate.js
revision, lines 255-350): the `geminiApiKey` guard sits before the `type`
switch, so a missing server key yields a 500 configuration error for every
request type before any provider call. -/
def handlerFirstStep (geminiApiKey : Option String) (body : RequestBody) : HandlerOutcome :=
  if ¬ jsTruthy geminiApiKey then
    .configError 500 "Server configuration error: API Key is missing. Please check Vercel environment variables."
  else
    match body with
    | .image p =>
      if p.engine = "dalle" then
        if ¬ jsTruthy p.openaiApiKey then
          .requestError "OpenAI API Key is required for DALL-E."
        else
          .providerCall (.callDalle (finalPrompt p) (dalleSize p.aspectRatio))
      else
        .providerCall (.callGemini (finalPrompt p) (imagePartsOf p))
    | .finalRender d =>
      .providerCall (.callGemini finalRenderInstructionShort [.inlineData ⟨"image/png", d⟩])
    | .ideas modelPayload => .providerCall (.callGeminiPayload modelPayload)
    | .analyze parts analysisType =>
      .providerCall (.callGeminiAnalyze parts analysisType)
    | .other _ => .badRequest "Invalid request type"

/-- First dispatch step of the FIRST generate.js handler revision (lines
96-193): no top-level key guard; the `geminiApiKey` check sits only inside
the default-provider path of the image branch (line 149), so other request
types, and dalle-engine image requests, go straight to a provider call
even when the server key is missing. -/
def handlerRev1FirstStep (geminiApiKey : Option String) (body : RequestBody) : HandlerOutcome :=
  match body with
  | .image p =>
    if p.engine = "dalle" then
      if ¬ jsTruthy p.openaiApiKey then
        .requestError "OpenAI API Key is required for DALL-E."
      else
        .providerCall (.callDalle (finalPrompt p) (dalleSize p.aspectRatio))
    else
      if ¬ jsTruthy geminiApiKey then
        .requestError "Gemini API Key is not configured on the server."
      else
        .providerCall (.callGemini (finalPrompt p) (imagePartsOf p))
  | .finalRender d =>
    .providerCall (.callGemini finalRenderInstruction [.inlineData ⟨"image/png", d⟩])
  | .ideas modelPayload => .providerCall (.callGeminiPayload modelPayload)
  | .analyze _ _ => .badRequest "Invalid request type"
  | .other _ => .badRequest "Invalid request type"

/-- The `ideas` branch of part_000 (lines 148-162): `JSON.parse(ideasText)`
is wrapped in try/catch; on a parse failure the handler throws its own
error that embeds the raw provider text.  `parsed` is the outcome of the
platform JSON parser on `ideasText`. -/
def handleIdeasText (ideasText : String) (parsed : Option Json) : Except String Json :=
  match parsed with
  | some j => .ok j
  | none => .error ("AI returned invalid JSON. Raw response: " ++ ideasText)

/-- The `analyze` branch (part_000 line 184, generate.js line 346) and the
`ideas` branch of both generate.js revisions (lines 185 and 325):
`JSON.parse(jsonText)` is NOT wrapped; a parse failure propagates the
SyntaxError message of the platform parser (`parseErrMsg`) to the outer
catch unchanged. -/
def handleAnalyzeText (parsed : Option Json) (parseErrMsg : String) : Except String Json :=
  match parsed with
  | some j => .ok j
  | none => .error parseErrMsg

/-- Test whether the string `s` starts with `pre`. -/
def strHasStart (s pre : String) : Bool :=
  charsHaveStart pre.data s.data

lemma charsHaveStart_append (pat rest : List Char) :
    charsHaveStart pat (pat ++ rest) = true := by
  induction pat with
  | nil => simp [charsHaveStart]
  | cons a as ih => simp [charsHaveStart, ih]

lemma charsContain_of_start (pat s : List Char) (h : charsHaveStart pat s = true) :
    charsContain pat s = true := by
  cases s with
  | nil =>
    cases pat with
    | nil => simp [charsContain, List.isEmpty]
    | cons a as => simp [charsHaveStart] at h
  | cons b bs => simp [charsContain, h]

lemma charsContain_append_left (l pat s : List Char) (h : charsContain pat s = true) :
    charsContain pat (l ++ s) = true := by
  induction l with
  | nil => simpa using h
  | cons a as ih =>
    have : charsContain pat (a :: (as ++ s)) =
        (charsHaveStart pat (a :: (as ++ s)) || charsContain pat (as ++ s)) := by
      simp [charsContain]
    simp [this, ih]

lemma containsSubstr_sandwich (a t b : String) :
    containsSubstr (a ++ t ++ b) t = true := by
  unfold containsSubstr
  have hdata : (a ++ t ++ b).data = a.data ++ (t.data ++ b.data) := by
    simp [String.data_append, List.append_assoc]
  rw [hdata]
  exact charsContain_append_left _ _ _
    (charsContain_of_start _ _ (charsHaveStart_append _ _))

lemma containsSubstr_append_right (a t : String) :
    containsSubstr (a ++ t) t = true := by
  have := containsSubstr_sandwich a t ""
  simpa using this

lemma strHasStart_append (pre rest : String) :
    strHasStart (pre ++ rest) pre = true := by
  unfold strHasStart
  rw [String.data_append]
  exact charsHaveStart_append _ _

/-- C1: for every focus value in produk, keduanya, kemasan, or an
unrecognized value, the prompt builder appends exactly one of the three
focus-directive variants to the creative brief, an unrecognized value
producing the same packaging-only directive as kemasan; in Poster mode the
directive is appended only when the reference-image list is non-empty, in
the default Product-photo mode it is always appended, and in Mockup mode
no directive is ever appended. -/
theorem C1_focus_directive_selection :
    (∀ p : ImagePayload, ∀ blobs : List Blob,
        p.mode = "Poster / Desain" → p.imageBlobs = some blobs → blobs ≠ [] →
        creativeBrief p = posterBase p ++ focusDirective p.aiFocus) ∧
    (∀ p : ImagePayload,
        p.mode = "Poster / Desain" →
        (p.imageBlobs = none ∨ p.imageBlobs = some []) →
        creativeBrief p = posterBase p) ∧
    (∀ p : ImagePayload, p.mode = "Mockup Packaging" →
        creativeBrief p = mockupBase p) ∧
    (∀ p : ImagePayload, p.mode ≠ "Poster / Desain" → p.mode ≠ "Mockup Packaging" →
        creativeBrief p = fotoBase p ++ focusDirective p.aiFocus) ∧
    (∀ f : String,
        focusDirective f = focusProduk ∨ focusDirective f = focusKeduanya ∨
        focusDirective f = focusKemasan) ∧
    (∀ f : String, f ≠ "produk" → f ≠ "keduanya" →
        focusDirective f = focusDirective "kemasan") := by
  refine ⟨?_, ?_, ?_, ?_, ?_, ?_⟩
  · intro p blobs hm hb hne
    have hlen : 0 < blobs.length := List.length_pos.mpr hne
    simp [creativeBrief, hm, hb, hlen]
  · intro p hm hb
    rcases hb with hb | hb <;> simp [creativeBrief, hm, hb]
  · intro p hm
    simp [creativeBrief, hm]
  · intro p h1 h2
    simp [creativeBrief, h1, h2]
  · intro f
    unfold focusDirective
    by_cases h1 : f = "produk"
    · simp [h1]
    · by_cases h2 : f = "keduanya" <;> simp [h1, h2]
  · intro f h1 h2
    simp [focusDirective, h1, h2]

/-- Concrete Poster-mode payload with one reference image. -/
def pC1a : ImagePayload :=
  { mode := "Poster / Desain", prompt := "p", posterHeadline := "h",
    mockupType := "box", brandName := "B", brandDescription := "d",
    aspectRatio := "1:1", aiFocus := "apa", engine := "",
    openaiApiKey := none, imageBlobs := some [⟨"image/png", "AA"⟩] }

/-- Concrete Poster-mode payload with no reference images. -/
def pC1b : ImagePayload := { pC1a with imageBlobs := none }

/-- Concrete Mockup-mode payload. -/
def pC1c : ImagePayload := { pC1a with mode := "Mockup Packaging" }

/-- Concrete default-mode (Foto Produk) payload. -/
def pC1d : ImagePayload := { pC1a with mode := "Foto Produk" }

/-- Witness for C1 at concrete payloads with the unrecognized focus value
"apa". -/
theorem C1_focus_directive_selection_witness :
    creativeBrief pC1a = posterBase pC1a ++ focusDirective pC1a.aiFocus ∧
    creativeBrief pC1b = posterBase pC1b ∧
    creativeBrief pC1c = mockupBase pC1c ∧
    creativeBrief pC1d = fotoBase pC1d ++ focusDirective pC1d.aiFocus ∧
    (focusDirective "apa" = focusProduk ∨ focusDirective "apa" = focusKeduanya ∨
      focusDirective "apa" = focusKemasan) ∧
    focusDirective "apa" = focusDirective "kemasan" :=
  ⟨C1_focus_directive_selection.1 pC1a [⟨"image/png", "AA"⟩] rfl rfl (by decide),
   C1_focus_directive_selection.2.1 pC1b rfl (Or.inl rfl),
   C1_focus_directive_selection.2.2.1 pC1c rfl,
   C1_focus_directive_selection.2.2.2.1 pC1d (by decide) (by decide),
   C1_focus_directive_selection.2.2.2.2.1 "apa",
   C1_focus_directive_selection.2.2.2.2.2 "apa" (by decide) (by decide)⟩

/-- C2: for every aspectRatio key among 1:1, 4:5, 9:16 and 16:9, the label
lookup and the DALL-E size lookup both return a defined, non-empty string;
for any other key the size lookup falls back to 1024x1024 and the label
lookup yields the undefined label (its documented default); 9:16 maps to
1024x1792. -/
theorem C2_aspect_ratio_lookups :
    (∀ k : String, (k = "1:1" ∨ k = "4:5" ∨ k = "9:16" ∨ k = "16:9") →
        (aspectRatioDescriptions k).isSome = true ∧
        (aspectRatioDescriptions k).getD "" ≠ "" ∧
        (sizeMapping k).isSome = true ∧
        (sizeMapping k).getD "" ≠ "") ∧
    (∀ k : String, k ≠ "1:1" → k ≠ "4:5" → k ≠ "9:16" → k ≠ "16:9" →
        dalleSize k = "1024x1024" ∧ aspectRatioDescriptions k = none) ∧
    dalleSize "9:16" = "1024x1792" := by
  refine ⟨?_, ?_, rfl⟩
  · rintro k (rfl | rfl | rfl | rfl) <;> exact ⟨rfl, by decide, rfl, by decide⟩
  · intro k h1 h2 h3 h4
    unfold dalleSize sizeMapping aspectRatioDescriptions
    simp [h1, h2, h3, h4]

/-- Witness for C2 at the key 9:16 and the unrecognized key 3:2. -/
theorem C2_aspect_ratio_lookups_witness :
    ((aspectRatioDescriptions "9:16").isSome = true ∧
      (aspectRatioDescriptions "9:16").getD "" ≠ "" ∧
      (sizeMapping "9:16").isSome = true ∧
      (sizeMapping "9:16").getD "" ≠ "") ∧
    dalleSize "3:2" = "1024x1024" ∧ aspectRatioDescriptions "3:2" = none :=
  ⟨C2_aspect_ratio_lookups.1 "9:16" (Or.inr (Or.inr (Or.inl rfl))),
   C2_aspect_ratio_lookups.2.1 "3:2" (by decide) (by decide) (by decide) (by decide)⟩

/-- C3 counterexample: on a response with no inline image and no text, the
raised message is NOT exactly "AI did not return an image." — the code
appends a fixed hint about safety filters to it. -/
theorem C3_counterexample_message_not_bare :
    geminiExtract ⟨[⟨[], "STOP"⟩]⟩ =
      .error "AI did not return an image. This might be due to safety filters or an incompatible prompt." ∧
    "AI did not return an image. This might be due to safety filters or an incompatible prompt." ≠
      "AI did not return an image." :=
  ⟨rfl, by decide⟩

/-- C3 (amended): when the default-provider response has no inline-image
part in its first candidate and no textual content, the dispatch fails
with a message that is exactly "AI did not return an image." followed by
the fixed hint " This might be due to safety filters or an incompatible
prompt." -/
theorem C3_no_image_no_text_message (r : GeminiResponse) (c : Candidate)
    (rest : List Candidate)
    (hc : r.candidates = c :: rest)
    (hno : findInlineData c.parts = none)
    (htext : r.textOf = "") :
    geminiExtract r =
      .error ("AI did not return an image." ++
        " This might be due to safety filters or an incompatible prompt.") := by
  simp [geminiExtract, hc, hno, htext]

/-- Witness for the amended C3 at a concrete empty response. -/
theorem C3_no_image_no_text_message_witness :
    geminiExtract ⟨[⟨[], "STOP"⟩]⟩ =
      .error ("AI did not return an image." ++
        " This might be due to safety filters or an incompatible prompt.") :=
  C3_no_image_no_text_message ⟨[⟨[], "STOP"⟩]⟩ ⟨[], "STOP"⟩ [] rfl rfl rfl

/-- Concrete response simulating a safety-filter stop: finish reason
SAFETY, a textual part, no inline image. -/
def rC4 : GeminiResponse := ⟨[⟨[.text "blocked"], "SAFETY"⟩]⟩

/-- C4 counterexample: on a simulated safety-filter stop (finish reason
SAFETY) with textual content "blocked" and no inline image, the raised
message contains the textual fallback but contains NO mention of safety
filtering — the code never inspects the finish reason. -/
theorem C4_counterexample_no_safety_mention :
    geminiExtract rC4 = .error "AI failed to create image: \"blocked\"" ∧
    containsSubstr "AI failed to create image: \"blocked\"" "blocked" = true ∧
    containsSubstr "AI failed to create image: \"blocked\"" "safety" = false ∧
    containsSubstr "AI failed to create image: \"blocked\"" "Safety" = false ∧
    containsSubstr "AI failed to create image: \"blocked\"" "SAFETY" = false ∧
    containsSubstr "AI failed to create image: \"blocked\"" "filter" = false :=
  ⟨rfl, by decide, by decide, by decide, by decide, by decide⟩

/-- C4 (amended): when the default-provider response carries textual
content and no inline image, the raised error is exactly the fixed wrapper
around the textual fallback (so it contains the fallback verbatim), and
the extraction is invariant under the finish reason — no safety-filter
mention is ever added to a textual error. -/
theorem C4_text_error_ignores_finish_reason (r : GeminiResponse)
    (c : Candidate) (rest : List Candidate)
    (hc : r.candidates = c :: rest)
    (hno : findInlineData c.parts = none)
    (htext : r.textOf ≠ "") :
    geminiExtract r = .error ("AI failed to create image: \"" ++ r.textOf ++ "\"") ∧
    containsSubstr ("AI failed to create image: \"" ++ r.textOf ++ "\"") r.textOf = true ∧
    (∀ reason : String,
      geminiExtract ⟨(⟨c.parts, reason⟩ : Candidate) :: rest⟩ = geminiExtract r) := by
  refine ⟨?_, ?_, ?_⟩
  · simp [geminiExtract, hc, hno, htext]
  · exact containsSubstr_sandwich "AI failed to create image: \"" r.textOf "\""
  · intro reason
    simp [geminiExtract, hc, hno, GeminiResponse.textOf]

/-- Witness for the amended C4 at the concrete safety-stop response, with
the finish-reason invariance instantiated at the normal reason STOP. -/
theorem C4_text_error_ignores_finish_reason_witness :
    geminiExtract rC4 = .error ("AI failed to create image: \"" ++ rC4.textOf ++ "\"") ∧
    containsSubstr ("AI failed to create image: \"" ++ rC4.textOf ++ "\"") rC4.textOf = true ∧
    geminiExtract ⟨(⟨[.text "blocked"], "STOP"⟩ : Candidate) :: []⟩ = geminiExtract rC4 :=
  have h := C4_text_error_ignores_finish_reason rC4 ⟨[.text "blocked"], "SAFETY"⟩ [] rfl rfl (by decide)
  ⟨h.1, h.2.1, h.2.2 "STOP"⟩

/-- C5 counterexample: the analyze branch (and the ideas branch of both
generate.js revisions) does not wrap the JSON parse; on invalid provider
text such as "not json", the platform parser exception (here the V8
SyntaxError message for that input) propagates unchanged, so the raised
error neither contains the original text nor is the distinct
invalid-JSON wrapper error. -/
theorem C5_counterexample_analyze_raw_error :
    handleAnalyzeText none "Unexpected token o in JSON at position 1" =
      .error "Unexpected token o in JSON at position 1" ∧
    containsSubstr "Unexpected token o in JSON at position 1" "not json" = false ∧
    "Unexpected token o in JSON at position 1" ≠
      "AI returned invalid JSON. Raw response: not json" :=
  ⟨rfl, by decide, by decide⟩

/-- C5 (amended): the ideas branch of part_000, which wraps the JSON
parse, returns the parsed object itself on valid provider text, and on
invalid text fails with the distinct invalid-JSON error whose message
contains the original text verbatim; the analyze branch (and the ideas
branch of the generate.js revisions) instead propagates the raw parser
message unchanged. -/
theorem C5_ideas_json_round_trip (t : String) (parsed : Option Json) :
    (∀ j : Json, parsed = some j → handleIdeasText t parsed = .ok j) ∧
    (parsed = none →
      handleIdeasText t parsed = .error ("AI returned invalid JSON. Raw response: " ++ t) ∧
      containsSubstr ("AI returned invalid JSON. Raw response: " ++ t) t = true) ∧
    (∀ m : String, parsed = none → handleAnalyzeText parsed m = .error m) := by
  refine ⟨?_, ?_, ?_⟩
  · rintro j rfl; rfl
  · rintro rfl
    exact ⟨rfl, containsSubstr_append_right _ _⟩
  · rintro m rfl; rfl

/-- Witness for the amended C5 at the invalid text "not json" and the
valid text denoting an empty array. -/
theorem C5_ideas_json_round_trip_witness :
    handleIdeasText "not json" none =
      .error ("AI returned invalid JSON. Raw response: " ++ "not json") ∧
    containsSubstr ("AI returned invalid JSON. Raw response: " ++ "not json") "not json" = true ∧
    handleIdeasText "[]" (some (.arr [])) = .ok (.arr []) ∧
    handleAnalyzeText none "Unexpected token o in JSON at position 1" =
      .error "Unexpected token o in JSON at position 1" :=
  have h1 := (C5_ideas_json_round_trip "not json" none).2.1 rfl
  have h2 := (C5_ideas_json_round_trip "[]" (some (.arr []))).1 (.arr []) rfl
  have h3 := (C5_ideas_json_round_trip "not json" none).2.2
    "Unexpected token o in JSON at position 1" rfl
  ⟨h1.1, h1.2, h2, h3⟩

/-- C6 counterexample: in the FIRST generate.js handler revision the
server-key guard sits only inside the image branch, so with the server
credential absent (a falsy key) a final-render request is NOT
short-circuited: it proceeds straight to a default-provider call. -/
theorem C6_counterexample_rev1_no_guard :
    jsTruthy none = false ∧
    handlerRev1FirstStep none (.finalRender "QUJD") =
      .providerCall (.callGemini finalRenderInstruction [.inlineData ⟨"image/png", "QUJD"⟩]) ∧
    handlerRev1FirstStep none (.finalRender "QUJD") ≠
      .configError 500 "Server configuration error: API Key is missing. Please check Vercel environment variables." :=
  ⟨rfl, rfl, by simp [handlerRev1FirstStep]⟩

/-- C6 (amended): in the handler revisions with the top-level credential
guard (part_000 and the second generate.js revision), an absent or empty
server credential short-circuits EVERY request type with the 500
configuration-error response before any provider call; the first
generate.js revision guards only the default-provider path of the image
branch. -/
theorem C6_missing_key_short_circuits (key : Option String) (body : RequestBody)
    (h : jsTruthy key = false) :
    handlerFirstStep key body =
      .configError 500 "Server configuration error: API Key is missing. Please check Vercel environment variables." := by
  unfold handlerFirstStep
  simp [h]

/-- Witness for the amended C6: with the key absent, an ideas request is
short-circuited by the guarded handler. -/
theorem C6_missing_key_short_circuits_witness :
    handlerFirstStep none (.ideas "make ideas") =
      .configError 500 "Server configuration error: API Key is missing. Please check Vercel environment variables." :=
  C6_missing_key_short_circuits none (.ideas "make ideas") rfl

/-- C7: an image request selecting the DALL-E engine with an absent
caller-supplied OpenAI key fails immediately with the missing-credential
error and never reaches a provider network call, in every handler
revision (for the guarded revisions, given a configured server key). -/
theorem C7_dalle_requires_caller_key (p : ImagePayload) (key : Option String)
    (heng : p.engine = "dalle") (hkey : p.openaiApiKey = none) :
    handlerRev1FirstStep key (.image p) =
      .requestError "OpenAI API Key is required for DALL-E." ∧
    (∀ a : DispatchAction, handlerRev1FirstStep key (.image p) ≠ .providerCall a) ∧
    (jsTruthy key = true →
      handlerFirstStep key (.image p) =
        .requestError "OpenAI API Key is required for DALL-E." ∧
      ∀ a : DispatchAction, handlerFirstStep key (.image p) ≠ .providerCall a) := by
  have h1 : handlerRev1FirstStep key (.image p) =
      .requestError "OpenAI API Key is required for DALL-E." := by
    simp [handlerRev1FirstStep, heng, hkey, jsTruthy]
  refine ⟨h1, ?_, ?_⟩
  · intro a
    rw [h1]
    simp
  · intro hk
    have h2 : handlerFirstStep key (.image p) =
        .requestError "OpenAI API Key is required for DALL-E." := by
      unfold handlerFirstStep
      rw [hk]
      simp [heng, hkey, jsTruthy]
    refine ⟨h2, ?_⟩
    intro a
    rw [h2]
    simp

/-- Concrete DALL-E-engine payload with the caller credential absent. -/
def pC7 : ImagePayload :=
  { mode := "Foto Produk", prompt := "p", posterHeadline := "",
    mockupType := "", brandName := "", brandDescription := "",
    aspectRatio := "9:16", aiFocus := "kemasan", engine := "dalle",
    openaiApiKey := none, imageBlobs := none }

/-- Witness for C7 at a concrete DALL-E request with a configured server
key, instantiating the no-call conjunct at the DALL-E action itself. -/
theorem C7_dalle_requires_caller_key_witness :
    handlerRev1FirstStep (some "srv") (.image pC7) =
      .requestError "OpenAI API Key is required for DALL-E." ∧
    handlerRev1FirstStep (some "srv") (.image pC7) ≠
      .providerCall (.callDalle (finalPrompt pC7) (dalleSize pC7.aspectRatio)) ∧
    handlerFirstStep (some "srv") (.image pC7) =
      .requestError "OpenAI API Key is required for DALL-E." :=
  have h := C7_dalle_requires_caller_key pC7 (some "srv") rfl rfl
  ⟨h.1, h.2.1 _, (h.2.2 rfl).1⟩

/-- Concrete default-mode payload of the C8 scenario. -/
def pC8 : ImagePayload :=
  { mode := "Foto Produk", prompt := "a blue bottle on marble",
    posterHeadline := "", mockupType := "", brandName := "",
    brandDescription := "", aspectRatio := "1:1", aiFocus := "produk",
    engine := "gemini", openaiApiKey := none, imageBlobs := none }

/-- C8: for a default Product-photo request with prompt "a blue bottle on
marble", aspect ratio 1:1, focus produk and no reference images, the
prompt-builder output contains both "square (1:1)" and "Focus ONLY on the
raw product". -/
theorem C8_product_photo_prompt :
    containsSubstr (finalPrompt pC8) "square (1:1)" = true ∧
    containsSubstr (finalPrompt pC8) "Focus ONLY on the raw product" = true := by
  constructor <;> decide

lemma geminiExtract_ok (r : GeminiResponse) (s : String)
    (h : geminiExtract r = .ok s) :
    ∃ d, s = "data:image/png;base64," ++ d := by
  cases hc : r.candidates with
  | nil =>
    by_cases ht : r.textOf = "" <;> simp [geminiExtract, hc, ht] at h
  | cons c rest =>
    cases hf : findInlineData c.parts with
    | none =>
      by_cases ht : r.textOf = "" <;> simp [geminiExtract, hc, hf, ht] at h
    | some d =>
      simp [geminiExtract, hc, hf] at h
      exact ⟨d, h.symm⟩

lemma finalRenderExtract_ok (r : GeminiResponse) (s : String)
    (h : finalRenderExtract r = .ok s) :
    ∃ d, s = "data:image/png;base64," ++ d := by
  cases hc : r.candidates with
  | nil => simp [finalRenderExtract, hc] at h
  | cons c rest =>
    cases hf : findInlineData c.parts with
    | none => simp [finalRenderExtract, hc, hf] at h
    | some d =>
      simp [finalRenderExtract, hc, hf] at h
      exact ⟨d, h.symm⟩

/-- C9: every successful result of the default-provider paths — image
generation and final-render touch-up alike — starts with the exact
data-URI head "data:image/png;base64,", whatever mime type the inline
data carried. -/
theorem C9_png_data_uri (r : GeminiResponse) (s : String)
    (h : geminiExtract r = .ok s ∨ finalRenderExtract r = .ok s) :
    strHasStart s "data:image/png;base64," = true := by
  have hs : ∃ d, s = "data:image/png;base64," ++ d := by
    rcases h with h | h
    · exact geminiExtract_ok r s h
    · exact finalRenderExtract_ok r s h
  obtain ⟨d, rfl⟩ := hs
  exact strHasStart_append _ _

/-- Concrete response whose inline data is declared as a JPEG. -/
def rC9 : GeminiResponse := ⟨[⟨[.inlineData ⟨"image/jpeg", "QUJD"⟩], "STOP"⟩]⟩

/-- Concrete final-render response whose inline data is declared a WEBP. -/
def rC9b : GeminiResponse := ⟨[⟨[.inlineData ⟨"image/webp", "REVG"⟩], "STOP"⟩]⟩

/-- Witness for C9 at concrete responses carrying JPEG and WEBP inline
data: both paths still emit a PNG data URI. -/
theorem C9_png_data_uri_witness :
    strHasStart "data:image/png;base64,QUJD" "data:image/png;base64," = true ∧
    strHasStart "data:image/png;base64,REVG" "data:image/png;base64," = true :=
  ⟨C9_png_data_uri rC9 "data:image/png;base64,QUJD" (Or.inl rfl),
   C9_png_data_uri rC9b "data:image/png;base64,REVG" (Or.inr rfl)⟩

/-- Concrete Poster-mode, default-engine payload whose payload omits the
reference-image list. -/
def pC10 : ImagePayload :=
  { mode := "Poster / Desain", prompt := "p", posterHeadline := "h",
    mockupType := "", brandName := "", brandDescription := "",
    aspectRatio := "1:1", aiFocus := "produk", engine := "gemini",
    openaiApiKey := none, imageBlobs := none }

/-- C10: a payload that omits the reference-image list entirely is treated
as an empty attachment list: the attachment mapping yields no parts (and
raises no error, being total), the Poster-mode focus directive is not
appended, and in every revision the default provider is invoked with zero
attachments. -/
theorem C10_absent_blobs (p : ImagePayload) (h : p.imageBlobs = none) :
    imagePartsOf p = [] ∧
    (p.mode = "Poster / Desain" → creativeBrief p = posterBase p) ∧
    (p.engine ≠ "dalle" → ∀ key : Option String, jsTruthy key = true →
      handlerFirstStep key (.image p) =
        .providerCall (.callGemini (finalPrompt p) []) ∧
      handlerRev1FirstStep key (.image p) =
        .providerCall (.callGemini (finalPrompt p) [])) := by
  refine ⟨?_, ?_, ?_⟩
  · simp [imagePartsOf, h]
  · intro hm
    simp [creativeBrief, hm, h]
  · intro he key hk
    constructor
    · unfold handlerFirstStep
      rw [hk]
      simp [he, imagePartsOf, h]
    · unfold handlerRev1FirstStep
      simp [he, imagePartsOf, h, hk]

/-- Witness for C10 at a concrete Poster-mode payload without an
image-blob list and a configured server key. -/
theorem C10_absent_blobs_witness :
    imagePartsOf pC10 = [] ∧
    creativeBrief pC10 = posterBase pC10 ∧
    handlerFirstStep (some "srv") (.image pC10) =
      .providerCall (.callGemini (finalPrompt pC10) []) ∧
    handlerRev1FirstStep (some "srv") (.image pC10) =
      .providerCall (.callGemini (finalPrompt pC10) []) :=
  have h := C10_absent_blobs pC10 rfl
  ⟨h.1, h.2.1 rfl, (h.2.2 (by decide) (some "srv") rfl).1,
   (h.2.2 (by decide) (some "srv") rfl).2⟩

end CreatorStudio
